import Mathlib

/-!
Verification of the avionics-system-simulator core against its
specification.  The C++ sources are shallowly embedded: `double` becomes
`ℚ`, `std::deque<double>` becomes `List ℚ`, member functions become pure
state-passing functions, and the wall clock (`std::chrono` `now()`) becomes
an explicit `ℚ` argument.  The math-library calls `std::sin` and `std::exp`
are abstracted as function parameters `sinq`/`expq : ℚ → ℚ` so every
definition stays executable for any concrete choice of those parameters.
-/

set_option maxHeartbeats 1000000

/-- Fault severity levels (`FaultSeverity` in FaultHandler.h). -/
inductive FaultSeverity
  | INFO
  | WARNING
  | CRITICAL
  | FATAL
  deriving DecidableEq, Repr

/-- A fault log entry (`FaultRecord` in FaultHandler.h).  The wall-clock
`timestamp` field is metadata never read by the core logic and is omitted. -/
structure FaultRecord where
  severity : FaultSeverity
  component : String
  description : String
  resolved : Bool
  deriving DecidableEq, Repr

/-- State of the `FaultHandler` class: the append-only fault log plus the two
incrementally maintained severity counters. -/
structure FaultHandler where
  faults : List FaultRecord
  criticalFaultCount : Nat
  warningFaultCount : Nat
  deriving DecidableEq, Repr

/-- `FaultHandler::initialize()` (also the state after the constructor):
empty log, zero counters. -/
def initFaultHandler : FaultHandler :=
  { faults := [], criticalFaultCount := 0, warningFaultCount := 0 }

/-- `FaultHandler::reportFault`: append an unresolved record and bump the
matching counter (CRITICAL and FATAL share one counter; WARNING has its
own; INFO bumps none). -/
def FaultHandler.reportFault (h : FaultHandler) (severity : FaultSeverity)
    (component description : String) : FaultHandler :=
  { faults := h.faults ++ [⟨severity, component, description, false⟩]
    criticalFaultCount :=
      if severity = .CRITICAL ∨ severity = .FATAL then
        h.criticalFaultCount + 1
      else h.criticalFaultCount
    warningFaultCount :=
      if severity = .CRITICAL ∨ severity = .FATAL then h.warningFaultCount
      else if severity = .WARNING then h.warningFaultCount + 1
      else h.warningFaultCount }

/-- `FaultHandler::isInRange`: `value >= min && value <= max`. -/
def FaultHandler.isInRange (value lo hi : ℚ) : Bool :=
  decide (value ≥ lo ∧ value ≤ hi)

/-- `FaultHandler::checkSensorHealth`: on invalid data report one CRITICAL
fault and return immediately; otherwise run the three envelope checks and
the compound-hazard check in source order. -/
def FaultHandler.checkSensorHealth (h : FaultHandler)
    (altitude airspeed pressure : ℚ) (sensorValid : Bool) : FaultHandler :=
  if !sensorValid then
    h.reportFault .CRITICAL "SensorProcessor" "Sensor fault detected - invalid data"
  else
    let h1 := if !(FaultHandler.isInRange altitude (-500) 15000) then
        h.reportFault .WARNING "AltitudeSensor" "Altitude reading out of expected range"
      else h
    let h2 := if !(FaultHandler.isInRange airspeed 0 300) then
        h1.reportFault .WARNING "AirspeedSensor" "Airspeed reading out of expected range"
      else h1
    let h3 := if !(FaultHandler.isInRange pressure 100 1100) then
        h2.reportFault .WARNING "PressureSensor" "Pressure reading out of expected range"
      else h2
    if altitude < 0 ∧ airspeed > 50 then
      h3.reportFault .FATAL "FlightSystem" "Critical: Negative altitude with high airspeed"
    else h3

/-- `FaultHandler::checkControlSystem`: per-axis near-saturation checks
(`|x| > 0.95`), each reporting an independent WARNING. -/
def FaultHandler.checkControlSystem (h : FaultHandler)
    (elevator aileron rudder : ℚ) : FaultHandler :=
  let h1 := if |elevator| > 0.95 then
      h.reportFault .WARNING "ElevatorControl" "Elevator near saturation limit"
    else h
  let h2 := if |aileron| > 0.95 then
      h1.reportFault .WARNING "AileronControl" "Aileron near saturation limit"
    else h1
  if |rudder| > 0.95 then
    h2.reportFault .WARNING "RudderControl" "Rudder near saturation limit"
  else h2

/-- `FaultHandler::getActiveFaults`: the unresolved records. -/
def FaultHandler.getActiveFaults (h : FaultHandler) : List FaultRecord :=
  h.faults.filter (fun f => !f.resolved)

/-- `FaultHandler::isSystemSafe`: reads only the incremental
CRITICAL+FATAL counter, never the log. -/
def FaultHandler.isSystemSafe (h : FaultHandler) : Bool :=
  h.criticalFaultCount == 0

/-- `FaultHandler::getFaultCount`: count of unresolved records of the given
severity (this one does scan the log). -/
def FaultHandler.getFaultCount (h : FaultHandler) (severity : FaultSeverity) : Nat :=
  h.faults.countP (fun f => decide (f.severity = severity) && !f.resolved)

/-- `FaultHandler::clearResolvedFaults`: erase records whose `resolved` flag
is set; the counters are not touched. -/
def FaultHandler.clearResolvedFaults (h : FaultHandler) : FaultHandler :=
  { h with faults := h.faults.filter (fun f => !f.resolved) }

/-- The mutating public operations of `FaultHandler`, used to quantify over
every operation sequence. -/
inductive FaultOp
  | report (severity : FaultSeverity) (component description : String)
  | checkSensor (altitude airspeed pressure : ℚ) (sensorValid : Bool)
  | checkControls (elevator aileron rudder : ℚ)
  | clearResolved
  | reinit

/-- Apply one public operation to a `FaultHandler` state. -/
def FaultHandler.applyOp (h : FaultHandler) : FaultOp → FaultHandler
  | .report sev comp desc => h.reportFault sev comp desc
  | .checkSensor alt air press valid => h.checkSensorHealth alt air press valid
  | .checkControls e a r => h.checkControlSystem e a r
  | .clearResolved => h.clearResolvedFaults
  | .reinit => initFaultHandler

/-- State reached from `initialize()` after a sequence of public operations. -/
def runFaultOps (ops : List FaultOp) : FaultHandler :=
  ops.foldl FaultHandler.applyOp initFaultHandler

/-- The flight phases (`FlightPhase` in FlightController.h). -/
inductive FlightPhase
  | PREFLIGHT
  | TAKEOFF
  | CLIMB
  | CRUISE
  | DESCENT
  | APPROACH
  | LANDING
  | EMERGENCY
  deriving DecidableEq, Repr

/-- Control surface positions (`ControlSurfaces` in FlightController.h). -/
structure ControlSurfaces where
  elevator : ℚ
  aileron : ℚ
  rudder : ℚ
  throttle : ℚ
  deriving DecidableEq, Repr

/-- State of the `FlightController` class.  `phaseStartTime` embeds the
`std::chrono::steady_clock::time_point` member as a rational time stamp;
every member function that reads the clock takes the current time `now`
as an explicit argument. -/
structure FlightController where
  currentPhase : FlightPhase
  previousPhase : FlightPhase
  controls : ControlSurfaces
  phaseStartTime : ℚ
  deriving DecidableEq, Repr

/-- The `FlightController` constructor: PREFLIGHT, all surfaces zero. -/
def initFlightController (now : ℚ) : FlightController :=
  { currentPhase := .PREFLIGHT
    previousPhase := .PREFLIGHT
    controls := { elevator := 0, aileron := 0, rudder := 0, throttle := 0 }
    phaseStartTime := now }

/-- `FlightController::initialize()`: reset phase, clock and surfaces
(`previousPhase_` is not reset by the source). -/
def FlightController.reinit (c : FlightController) (now : ℚ) : FlightController :=
  { c with
    currentPhase := .PREFLIGHT
    phaseStartTime := now
    controls := { elevator := 0, aileron := 0, rudder := 0, throttle := 0 } }

/-- `FlightController::transitionToPhase`: change phase and reset the dwell
clock only when the phase actually changes. -/
def FlightController.transitionToPhase (c : FlightController)
    (newPhase : FlightPhase) (now : ℚ) : FlightController :=
  if newPhase ≠ c.currentPhase then
    { c with
      previousPhase := c.currentPhase
      currentPhase := newPhase
      phaseStartTime := now }
  else c

/-- `std::clamp`. -/
def clampQ (v lo hi : ℚ) : ℚ := min (max v lo) hi

/-- `FlightController::updateControlSurfaces`: phase-dependent throttle and
elevator targets (aileron/rudder are never commanded), then the
unconditional clamp of all four surfaces.  The three telemetry parameters
are unused by the source body. -/
def FlightController.updateControlSurfaces (c : FlightController)
    (_altitude _airspeed _verticalSpeed : ℚ) : FlightController :=
  let targets : ℚ × ℚ :=
    match c.currentPhase with
    | .PREFLIGHT => (0, 0)
    | .TAKEOFF => (1, 0.15)
    | .CLIMB => (0.9, 0.1)
    | .CRUISE => (0.7, 0)
    | .DESCENT => (0.4, -0.05)
    | .APPROACH => (0.3, -0.08)
    | .LANDING => (0.1, -0.1)
    | .EMERGENCY => (0.5, 0)
  { c with
    controls :=
      { elevator := clampQ targets.2 (-1) 1
        aileron := clampQ c.controls.aileron (-1) 1
        rudder := clampQ c.controls.rudder (-1) 1
        throttle := clampQ targets.1 0 1 } }

/-- `FlightController::update`: the phase-transition switch followed by
`updateControlSurfaces`.  In the PREFLIGHT guard the source reads the bare
identifier `throttle` (FlightController.cpp line 28), which names no
declared local or parameter; the only throttle in scope is the member
`controls_.throttle` ("throttle commanded" in the spec), and that is how it
is embedded.  The CRUISE dwell test truncates the elapsed time to whole
seconds (`duration_cast<seconds>`), embedded as the integer floor. -/
def FlightController.update (c : FlightController)
    (altitude airspeed verticalSpeed now : ℚ) : FlightController :=
  let c1 :=
    match c.currentPhase with
    | .PREFLIGHT =>
        if airspeed > 5 ∧ c.controls.throttle > 0.5 then
          c.transitionToPhase .TAKEOFF now
        else c
    | .TAKEOFF =>
        if altitude > 100 ∧ verticalSpeed > 2 then
          c.transitionToPhase .CLIMB now
        else c
    | .CLIMB =>
        if altitude > 3000 ∧ |verticalSpeed| < 1 then
          c.transitionToPhase .CRUISE now
        else c
    | .CRUISE =>
        if ⌊now - c.phaseStartTime⌋ > 60 ∧ verticalSpeed < -1 then
          c.transitionToPhase .DESCENT now
        else c
    | .DESCENT =>
        if altitude < 500 ∧ airspeed < 80 then
          c.transitionToPhase .APPROACH now
        else c
    | .APPROACH =>
        if altitude < 50 then
          c.transitionToPhase .LANDING now
        else c
    | .LANDING => c
    | .EMERGENCY => c
  c1.updateControlSurfaces altitude airspeed verticalSpeed

/-- `FlightController::triggerEmergency`: unconditionally records the
previous phase, enters EMERGENCY and resets the dwell clock (the reason
string is only logged). -/
def FlightController.triggerEmergency (c : FlightController) (now : ℚ) : FlightController :=
  { c with
    previousPhase := c.currentPhase
    currentPhase := .EMERGENCY
    phaseStartTime := now }

/-- Flight-controller states reachable through the public interface:
the constructor, `initialize`, `update` and `triggerEmergency`. -/
inductive ReachableFC : FlightController → Prop
  | ctor (now : ℚ) : ReachableFC (initFlightController now)
  | reinit {c : FlightController} (now : ℚ) :
      ReachableFC c → ReachableFC (c.reinit now)
  | update {c : FlightController} (altitude airspeed verticalSpeed now : ℚ) :
      ReachableFC c → ReachableFC (c.update altitude airspeed verticalSpeed now)
  | emergency {c : FlightController} (now : ℚ) :
      ReachableFC c → ReachableFC (c.triggerEmergency now)

/-- The telemetry produced each tick (`SensorData` in SensorProcessor.h). -/
structure SensorData where
  altitude : ℚ
  airspeed : ℚ
  pressure : ℚ
  temperature : ℚ
  verticalSpeed : ℚ
  valid : Bool
  deriving DecidableEq, Repr

/-- State of the `SensorProcessor` class: the two bounded filter histories
and the three injected fault flags.  The Mersenne-twister noise source is
embedded by passing each standard-normal draw as an explicit argument to
the sampling functions. -/
structure SensorProcessor where
  altitudeHistory : List ℚ
  airspeedHistory : List ℚ
  altitudeFault : Bool
  airspeedFault : Bool
  pressureFault : Bool
  deriving DecidableEq, Repr

/-- `SensorProcessor::initialize()` (also the constructor's state): empty
histories, no faults. -/
def initSensorProcessor : SensorProcessor :=
  { altitudeHistory := [], airspeedHistory := []
    altitudeFault := false, airspeedFault := false, pressureFault := false }

/-- `FILTER_WINDOW_SIZE`. -/
def FILTER_WINDOW_SIZE : Nat := 5

/-- `SensorProcessor::applyFilter`: push the new sample, evict the oldest
entry once the history exceeds the window size, return the updated history
together with the arithmetic mean of its contents. -/
def applyFilter (history : List ℚ) (newValue : ℚ) : List ℚ × ℚ :=
  let h1 := history ++ [newValue]
  let h2 := if h1.length > FILTER_WINDOW_SIZE then h1.tail else h1
  (h2, h2.sum / (h2.length : ℚ))

/-- `SensorProcessor::simulateAltitude`: the sentinel `-999.0` when the
altitude fault is injected, otherwise the piecewise flight profile plus
scaled noise, clamped below by 0.  `sinq` stands for `std::sin`; `n` is the
standard-normal draw. -/
def simulateAltitude (sinq : ℚ → ℚ) (altitudeFault : Bool) (time n : ℚ) : ℚ :=
  if altitudeFault then -999
  else
    let altitude : ℚ :=
      if time < 20 then 0
      else if time < 50 then 5 * (time - 20) * (time - 20)
      else if time < 150 then 3000 + 50 * sinq (time * 0.1)
      else if time < 200 then 3000 - 15 * (time - 150)
      else max 0 (2250 - 10 * (time - 200))
    max 0 (altitude + n * 2)

/-- `SensorProcessor::simulateAirspeed`: sentinel on fault, otherwise the
piecewise airspeed profile plus scaled noise, clamped below by 0. -/
def simulateAirspeed (sinq : ℚ → ℚ) (airspeedFault : Bool) (time n : ℚ) : ℚ :=
  if airspeedFault then -999
  else
    let airspeed : ℚ :=
      if time < 15 then 0
      else if time < 25 then 8 * (time - 15)
      else if time < 50 then 80 + (time - 25) * 0.8
      else if time < 150 then 100 + 10 * sinq (time * 0.05)
      else if time < 200 then 95
      else max 0 (95 - 3 * (time - 200))
    max 0 (airspeed + n * 1.5)

/-- `SensorProcessor::simulatePressure`: sentinel on fault, otherwise the
barometric formula on the (filtered) altitude plus scaled noise.  `expq`
stands for `std::exp`. -/
def simulatePressure (expq : ℚ → ℚ) (pressureFault : Bool) (altitude n : ℚ) : ℚ :=
  if pressureFault then -999
  else 1013.25 * expq (-(altitude / 8500)) + n * 0.5

/-- `SensorProcessor::simulateTemperature`: lapse-rate model on the
(filtered) altitude plus scaled noise. -/
def simulateTemperature (altitude n : ℚ) : ℚ :=
  15 - 0.0065 * altitude + n * 0.3

/-- `SensorProcessor::processSensors`: simulate raws, filter both channels
(mutating the histories), derive pressure and temperature from the filtered
altitude, compute the vertical speed from the last two entries of the
updated altitude history scaled by the hard-coded 10 Hz assumption, and set
`valid` iff no fault flag is set.  `nAlt/nAir/nPress/nTemp` are the four
standard-normal noise draws of this call. -/
def SensorProcessor.processSensors (s : SensorProcessor) (sinq expq : ℚ → ℚ)
    (simulationTime nAlt nAir nPress nTemp : ℚ) : SensorProcessor × SensorData :=
  let rawAltitude := simulateAltitude sinq s.altitudeFault simulationTime nAlt
  let rawAirspeed := simulateAirspeed sinq s.airspeedFault simulationTime nAir
  let fa := applyFilter s.altitudeHistory rawAltitude
  let fs := applyFilter s.airspeedHistory rawAirspeed
  let altitude := fa.2
  let pressure := simulatePressure expq s.pressureFault altitude nPress
  let temperature := simulateTemperature altitude nTemp
  -- `altitudeHistory_.back() - altitudeHistory_[size() - 2]`, guarded by
  -- `size() >= 2`, on the history updated by `applyFilter` above
  let verticalSpeed :=
    match fa.1.reverse with
    | a :: b :: _ => (a - b) * 10
    | _ => 0
  let valid := !s.altitudeFault && !s.airspeedFault && !s.pressureFault
  ({ s with altitudeHistory := fa.1, airspeedHistory := fs.1 },
   { altitude := altitude, airspeed := fs.2, pressure := pressure
     temperature := temperature, verticalSpeed := verticalSpeed, valid := valid })

/-- `SensorProcessor::injectFault`: overwrite the three fault flags. -/
def SensorProcessor.injectFault (s : SensorProcessor)
    (altitudeFault airspeedFault pressureFault : Bool) : SensorProcessor :=
  { s with
    altitudeFault := altitudeFault
    airspeedFault := airspeedFault
    pressureFault := pressureFault }

/-- `SensorProcessor::areSensorsHealthy`. -/
def SensorProcessor.areSensorsHealthy (s : SensorProcessor) : Bool :=
  !s.altitudeFault && !s.airspeedFault && !s.pressureFault

/-- The per-tick record handed to the telemetry logger and the console
(`logger_.logData(simulationTime_, sensors, currentPhase, controls,
activeFaults)` in `SystemMonitor::run`). -/
structure Snapshot where
  simTime : ℚ
  sensors : SensorData
  phase : FlightPhase
  controls : ControlSurfaces
  activeFaultCount : Nat
  deriving DecidableEq, Repr

/-- State of the `SystemMonitor` orchestrator. -/
structure SystemMonitor where
  flightController : FlightController
  sensorProcessor : SensorProcessor
  faultHandler : FaultHandler
  simulationTime : ℚ
  deriving DecidableEq, Repr

/-- `SystemMonitor::initialize()`: initialize all subsystems and zero the
simulation clock.  `now` is the wall-clock instant of the call. -/
def initSystemMonitor (now : ℚ) : SystemMonitor :=
  { flightController := initFlightController now
    sensorProcessor := initSensorProcessor
    faultHandler := initFaultHandler
    simulationTime := 0 }

/-- The emergency arbitration step of `SystemMonitor::run`:
`if (!faultHandler_.isSystemSafe() && currentPhase != FlightPhase::EMERGENCY)
  flightController_.triggerEmergency(...)`. -/
def emergencyOverride (fc : FlightController) (fh : FaultHandler) (now : ℚ) :
    FlightController :=
  if !fh.isSystemSafe && !(fc.currentPhase = FlightPhase.EMERGENCY) then
    fc.triggerEmergency now
  else fc

/-- One iteration of the `while` loop in `SystemMonitor::run`: process
sensors, update the flight controller, capture phase and controls, run both
fault checks, trigger the emergency override if unsafe, emit the snapshot
built from the captured (pre-override) phase, run the scheduled test fault
injection/clearing, and advance the simulation clock by `dt`.  `now` is the
wall-clock instant the flight controller reads this tick. -/
def SystemMonitor.tick (m : SystemMonitor) (sinq expq : ℚ → ℚ)
    (nAlt nAir nPress nTemp now dt : ℚ) : SystemMonitor × Snapshot :=
  let ps := m.sensorProcessor.processSensors sinq expq m.simulationTime
    nAlt nAir nPress nTemp
  let sensors := ps.2
  let fc1 := m.flightController.update sensors.altitude sensors.airspeed
    sensors.verticalSpeed now
  let currentPhase := fc1.currentPhase
  let controls := fc1.controls
  let fh1 := m.faultHandler.checkSensorHealth sensors.altitude sensors.airspeed
    sensors.pressure sensors.valid
  let fh2 := fh1.checkControlSystem controls.elevator controls.aileron controls.rudder
  let fc2 := emergencyOverride fc1 fh2 now
  let activeFaults := fh2.getActiveFaults.length
  let snapshot : Snapshot :=
    { simTime := m.simulationTime, sensors := sensors, phase := currentPhase
      controls := controls, activeFaultCount := activeFaults }
  let sp1 := ps.1
  let sp2 := if |m.simulationTime - 100| < dt then sp1.injectFault false true false else sp1
  let sp3 := if |m.simulationTime - 105| < dt then sp2.injectFault false false false else sp2
  ({ flightController := fc2, sensorProcessor := sp3, faultHandler := fh2
     simulationTime := m.simulationTime + dt }, snapshot)

/-- The monitor state after `n` iterations of the run loop, with the noise
draws and the wall-clock instants supplied as streams indexed by tick. -/
def runSystemMonitor (sinq expq : ℚ → ℚ) (noise : ℕ → ℚ × ℚ × ℚ × ℚ)
    (nowf : ℕ → ℚ) (dt : ℚ) : ℕ → SystemMonitor
  | 0 => initSystemMonitor (nowf 0)
  | n + 1 =>
    let m := runSystemMonitor sinq expq noise nowf dt n
    (m.tick sinq expq (noise n).1 (noise n).2.1 (noise n).2.2.1 (noise n).2.2.2
      (nowf (n + 1)) dt).1

/-- A concrete stand-in for `std::sin` used when evaluating the model on
closed inputs whose control flow never reaches a `sin` call. -/
def sinZero : ℚ → ℚ := fun _ => 0

/-- A concrete stand-in for `std::exp` used when evaluating the model on
closed inputs. -/
def expOne : ℚ → ℚ := fun _ => 1

/-- The monitor state right after the airspeed fault injection of the run
loop (the scheduled `injectFault(false, true, false)` at t ≈ 100 s), reset
to fresh subsystems: the concrete input of the C1 counterexample. -/
def c1Monitor : SystemMonitor :=
  { flightController := initFlightController 0
    sensorProcessor := initSensorProcessor.injectFault false true false
    faultHandler := initFaultHandler
    simulationTime := 0 }

/-- Number of FATAL records in a fault log. -/
def countFatal (l : List FaultRecord) : Nat :=
  l.countP (fun f => decide (f.severity = .FATAL))

/-- The run-loop invariant behind claim C9: the altitude fault flag is never
set by the loop's own injection schedule, every altitude-history entry is
nonnegative (the simulated raw altitude is clamped below by 0), and no
FATAL record has ever been logged. -/
def SystemMonitorInv (m : SystemMonitor) : Prop :=
  m.sensorProcessor.altitudeFault = false ∧
  (∀ x ∈ m.sensorProcessor.altitudeHistory, 0 ≤ x) ∧
  countFatal m.faultHandler.faults = 0

/-!  ## FaultHandler invariants (claims C2, C3)  -/

/-- Number of CRITICAL or FATAL records in a fault log. -/
def countCriticalFatal (l : List FaultRecord) : Nat :=
  l.countP (fun f => decide (f.severity = .CRITICAL ∨ f.severity = .FATAL))

/-- The representation invariant of `FaultHandler`: the incremental counter
agrees with the log, and no record ever has its `resolved` flag set (nothing
in the core sets it). -/
def FaultHandlerInv (h : FaultHandler) : Prop :=
  h.criticalFaultCount = countCriticalFatal h.faults ∧
  ∀ f ∈ h.faults, f.resolved = false

/-- The legal control-surface envelope from FlightController.h. -/
def ControlSurfaces.inRange (cs : ControlSurfaces) : Prop :=
  -1 ≤ cs.elevator ∧ cs.elevator ≤ 1 ∧
  -1 ≤ cs.aileron ∧ cs.aileron ≤ 1 ∧
  -1 ≤ cs.rudder ∧ cs.rudder ≤ 1 ∧
  0 ≤ cs.throttle ∧ cs.throttle ≤ 1

instance (cs : ControlSurfaces) : Decidable cs.inRange := by
  unfold ControlSurfaces.inRange
  infer_instance

/-- The history-updating half of one `applyFilter` call. -/
def pushOnce (h : List ℚ) (v : ℚ) : List ℚ := (applyFilter h v).1

/-- The history after pushing the samples `vs` in order. -/
def pushSeq (h : List ℚ) (vs : List ℚ) : List ℚ := vs.foldl pushOnce h

/-- The history after feeding the constant sample `v` for `n` ticks. -/
def feedConst (h : List ℚ) (v : ℚ) : ℕ → List ℚ
  | 0 => h
  | n + 1 => pushOnce (feedConst h v n) v

/-- A `SensorProcessor` state with a short nominal history and the altitude
fault injected, used as a concrete witness input for claim C10. -/
def pollutedProcessor : SensorProcessor :=
  { initSensorProcessor with altitudeHistory := [3, 4, 5], altitudeFault := true }

/-- A `SensorProcessor` state with a short nominal history and the airspeed
fault injected, used as a concrete witness input for claim C10. -/
def pollutedAirProcessor : SensorProcessor :=
  { initSensorProcessor with airspeedHistory := [3, 4, 5], airspeedFault := true }

/-- A `SensorProcessor` state one tick after an altitude fault was cleared:
the fault flag is off again but the sentinel is still the newest history
entry, used as a concrete witness input for claim C10. -/
def clearedProcessor : SensorProcessor :=
  { initSensorProcessor with altitudeHistory := [3, -999] }

/-- First tick of the C5 counterexample run: simulated time 0, no noise. -/
def c5run1 : SensorProcessor × SensorData :=
  initSensorProcessor.processSensors sinZero expOne 0 0 0 0 0

/-- Second tick of the C5 counterexample run: simulated time 21, no noise
(raw altitude 5, history [0, 5], filtered altitude 5/2). -/
def c5run2 : SensorProcessor × SensorData :=
  c5run1.1.processSensors sinZero expOne 21 0 0 0 0

lemma faultHandlerInv_init : FaultHandlerInv initFaultHandler := by
  constructor
  · rfl
  · intro f hf
    simp [initFaultHandler] at hf

lemma faultHandlerInv_reportFault {h : FaultHandler}
    (sev : FaultSeverity) (comp desc : String) (hi : FaultHandlerInv h) :
    FaultHandlerInv (h.reportFault sev comp desc) := by
  obtain ⟨hc, hr⟩ := hi
  constructor
  · by_cases hs : sev = .CRITICAL ∨ sev = .FATAL <;>
      simp [FaultHandler.reportFault, countCriticalFatal, List.countP_append,
        List.countP_cons, hs, hc]
  · intro f hf
    simp only [FaultHandler.reportFault, List.mem_append, List.mem_singleton] at hf
    rcases hf with hf | hf
    · exact hr f hf
    · subst hf; rfl

lemma faultHandlerInv_checkSensorHealth {h : FaultHandler}
    (altitude airspeed pressure : ℚ) (sensorValid : Bool)
    (hi : FaultHandlerInv h) :
    FaultHandlerInv (h.checkSensorHealth altitude airspeed pressure sensorValid) := by
  unfold FaultHandler.checkSensorHealth
  split_ifs <;>
    repeat (first | exact hi | apply faultHandlerInv_reportFault)

lemma faultHandlerInv_checkControlSystem {h : FaultHandler}
    (elevator aileron rudder : ℚ) (hi : FaultHandlerInv h) :
    FaultHandlerInv (h.checkControlSystem elevator aileron rudder) := by
  unfold FaultHandler.checkControlSystem
  split_ifs <;>
    repeat (first | exact hi | apply faultHandlerInv_reportFault)

lemma faultHandlerInv_clearResolvedFaults {h : FaultHandler}
    (hi : FaultHandlerInv h) : FaultHandlerInv h.clearResolvedFaults := by
  obtain ⟨hc, hr⟩ := hi
  have hkeep : h.faults.filter (fun f => !f.resolved) = h.faults := by
    apply List.filter_eq_self.mpr
    intro f hf
    simp [hr f hf]
  constructor
  · simpa [FaultHandler.clearResolvedFaults, hkeep] using hc
  · intro f hf
    simp only [FaultHandler.clearResolvedFaults, hkeep] at hf
    exact hr f hf

lemma faultHandlerInv_applyOp {h : FaultHandler} (op : FaultOp)
    (hi : FaultHandlerInv h) : FaultHandlerInv (h.applyOp op) := by
  cases op with
  | report sev comp desc => exact faultHandlerInv_reportFault sev comp desc hi
  | checkSensor a b p v => exact faultHandlerInv_checkSensorHealth a b p v hi
  | checkControls e a r => exact faultHandlerInv_checkControlSystem e a r hi
  | clearResolved => exact faultHandlerInv_clearResolvedFaults hi
  | reinit => exact faultHandlerInv_init

lemma faultHandlerInv_runFaultOps (ops : List FaultOp) :
    FaultHandlerInv (runFaultOps ops) := by
  suffices hgen : ∀ (l : List FaultOp) (h : FaultHandler), FaultHandlerInv h →
      FaultHandlerInv (l.foldl FaultHandler.applyOp h) by
    exact hgen ops initFaultHandler faultHandlerInv_init
  intro l
  induction l with
  | nil => intro h hi; exact hi
  | cons op rest ih =>
    intro h hi
    exact ih _ (faultHandlerInv_applyOp op hi)

/-- C2.  After any sequence of public operations from `initialize()`,
`isSystemSafe()` is false exactly when the log holds at least one CRITICAL
or FATAL record (none is ever marked resolved, so "not yet cleared" is
every reported one); `isSystemSafe` itself reads only the incremental
counter, and `clearResolvedFaults` leaves that counter — hence the safety
verdict — unchanged. -/
theorem isSystemSafe_iff_no_critical_fatal (ops : List FaultOp) :
    ((runFaultOps ops).isSystemSafe = false ↔
      0 < countCriticalFatal (runFaultOps ops).faults) ∧
    (runFaultOps ops).clearResolvedFaults.isSystemSafe =
      (runFaultOps ops).isSystemSafe := by
  have hi := faultHandlerInv_runFaultOps ops
  refine ⟨?_, rfl⟩
  simp [FaultHandler.isSystemSafe, hi.1, Nat.pos_iff_ne_zero]

/-- C3.  On telemetry with `valid = false`, one call to `checkSensorHealth`
is exactly one CRITICAL `reportFault` — one record appended, severity
CRITICAL — and the result does not depend on the numeric arguments, i.e. no
range check is performed. -/
theorem checkSensorHealth_invalid_reports_one_critical
    (h : FaultHandler) (altitude airspeed pressure : ℚ) :
    h.checkSensorHealth altitude airspeed pressure false =
      h.reportFault .CRITICAL "SensorProcessor" "Sensor fault detected - invalid data" ∧
    (h.checkSensorHealth altitude airspeed pressure false).faults =
      h.faults ++
        [⟨.CRITICAL, "SensorProcessor", "Sensor fault detected - invalid data", false⟩] :=
  ⟨rfl, rfl⟩

/-- C8.  `triggerEmergency` on a controller already in EMERGENCY leaves the
observable state — the current phase and the exposed control surfaces —
unchanged (only the reason is re-logged; the non-observable dwell stamp and
`previousPhase_` have no getters and no effect in the absorbing EMERGENCY
phase). -/
theorem triggerEmergency_idempotent (c : FlightController) (now : ℚ)
    (_hE : c.currentPhase = .EMERGENCY) :
    (c.triggerEmergency now).currentPhase = .EMERGENCY ∧
    (c.triggerEmergency now).controls = c.controls :=
  ⟨rfl, rfl⟩

/-- Witness for C8 at a concrete EMERGENCY state. -/
theorem triggerEmergency_idempotent_witness :
    (((initFlightController 0).triggerEmergency 0).triggerEmergency 1).currentPhase
        = .EMERGENCY ∧
    (((initFlightController 0).triggerEmergency 0).triggerEmergency 1).controls
        = ((initFlightController 0).triggerEmergency 0).controls :=
  triggerEmergency_idempotent ((initFlightController 0).triggerEmergency 0) 1 rfl

/-!  ## Control-surface ranges and phase reachability (claims C7, C4)  -/

lemma clampQ_le (v lo hi : ℚ) : clampQ v lo hi ≤ hi := min_le_right _ _

lemma le_clampQ (v lo hi : ℚ) (h : lo ≤ hi) : lo ≤ clampQ v lo hi :=
  le_min (le_max_right _ _) h

lemma updateControlSurfaces_inRange (c : FlightController) (a s v : ℚ) :
    (c.updateControlSurfaces a s v).controls.inRange := by
  unfold FlightController.updateControlSurfaces ControlSurfaces.inRange
  refine ⟨le_clampQ _ _ _ (by norm_num), clampQ_le _ _ _,
    le_clampQ _ _ _ (by norm_num), clampQ_le _ _ _,
    le_clampQ _ _ _ (by norm_num), clampQ_le _ _ _,
    le_clampQ _ _ _ (by norm_num), clampQ_le _ _ _⟩

lemma update_controls_inRange (c : FlightController) (a s v now : ℚ) :
    (c.update a s v now).controls.inRange := by
  unfold FlightController.update
  exact updateControlSurfaces_inRange _ _ _ _

/-- C7.  In every reachable flight-controller state the exposed surfaces
satisfy elevator, aileron, rudder ∈ [-1, 1] and throttle ∈ [0, 1]; moreover
the clamp in `updateControlSurfaces` is unconditional, so its output is in
range from any starting state whatsoever. -/
theorem reachable_controls_in_range :
    (∀ c : FlightController, ReachableFC c → c.controls.inRange) ∧
    (∀ (c : FlightController) (altitude airspeed verticalSpeed : ℚ),
      (c.updateControlSurfaces altitude airspeed verticalSpeed).controls.inRange) := by
  refine ⟨?_, updateControlSurfaces_inRange⟩
  intro c hreach
  induction hreach with
  | ctor now => exact by norm_num [initFlightController, ControlSurfaces.inRange]
  | reinit now _ _ => exact by norm_num [FlightController.reinit, ControlSurfaces.inRange]
  | update altitude airspeed verticalSpeed now _ _ =>
    exact update_controls_inRange _ _ _ _ _
  | emergency now _ ih => exact ih

/-- Witness for C7 at the freshly constructed controller. -/
theorem reachable_controls_in_range_witness :
    (initFlightController 0).controls.inRange :=
  reachable_controls_in_range.1 (initFlightController 0) (ReachableFC.ctor 0)

lemma updateControlSurfaces_currentPhase (c : FlightController) (a s v : ℚ) :
    (c.updateControlSurfaces a s v).currentPhase = c.currentPhase := rfl

/-- The key invariant behind claim C4: in PREFLIGHT the commanded throttle
is pinned at 0, so the PREFLIGHT → TAKEOFF guard
(`airspeed > 5.0 && throttle > 0.5`) can never fire, and TAKEOFF is
unreachable. -/
lemma preflight_throttle_pinned {c : FlightController} (h : ReachableFC c) :
    (c.currentPhase = .PREFLIGHT → c.controls.throttle = 0) ∧
    c.currentPhase ≠ .TAKEOFF := by
  induction h with
  | ctor now => exact ⟨fun _ => rfl, by simp [initFlightController]⟩
  | reinit now _ _ => exact ⟨fun _ => rfl, by simp [FlightController.reinit]⟩
  | emergency now _ _ =>
    exact ⟨by simp [FlightController.triggerEmergency],
      by simp [FlightController.triggerEmergency]⟩
  | update altitude airspeed verticalSpeed now _ ih =>
    obtain ⟨ihT, ihN⟩ := ih
    rename_i c' _
    cases hphase : c'.currentPhase with
    | PREFLIGHT =>
      have ht : c'.controls.throttle = 0 := ihT hphase
      constructor
      · intro _
        norm_num [FlightController.update, hphase, ht,
          FlightController.updateControlSurfaces, clampQ]
      · norm_num [FlightController.update, hphase, ht,
          FlightController.updateControlSurfaces]
        try simp
        try decide
    | TAKEOFF => exact absurd hphase ihN
    | CLIMB =>
      constructor <;>
        · norm_num [FlightController.update, FlightController.transitionToPhase,
            FlightController.updateControlSurfaces, hphase]
          split_ifs <;> simp_all
    | CRUISE =>
      constructor <;>
        · norm_num [FlightController.update, FlightController.transitionToPhase,
            FlightController.updateControlSurfaces, hphase]
          split_ifs <;> simp_all
    | DESCENT =>
      constructor <;>
        · norm_num [FlightController.update, FlightController.transitionToPhase,
            FlightController.updateControlSurfaces, hphase]
          split_ifs <;> simp_all
    | APPROACH =>
      constructor <;>
        · norm_num [FlightController.update, FlightController.transitionToPhase,
            FlightController.updateControlSurfaces, hphase]
          split_ifs <;> simp_all
    | LANDING =>
      constructor <;>
        · simp [FlightController.update, FlightController.transitionToPhase,
            FlightController.updateControlSurfaces, hphase]
    | EMERGENCY =>
      constructor <;>
        · simp [FlightController.update, FlightController.transitionToPhase,
            FlightController.updateControlSurfaces, hphase]

/-- C4 (code bug).  The PREFLIGHT → TAKEOFF transition never fires: the
guard reads the controller's own commanded throttle, which
`updateControlSurfaces` forces to 0.0 on every PREFLIGHT tick, so no
reachable state is in TAKEOFF; in particular one update tick from the
initial state with filtered airspeed 10 (> 5.0) leaves the phase at
PREFLIGHT with commanded throttle 0. -/
theorem takeoff_unreachable :
    (∀ c : FlightController, ReachableFC c → c.currentPhase ≠ .TAKEOFF) ∧
    ((initFlightController 0).update 0 10 0 0).currentPhase = .PREFLIGHT ∧
    ((initFlightController 0).update 0 10 0 0).controls.throttle = 0 := by
  refine ⟨fun c h => (preflight_throttle_pinned h).2, ?_, ?_⟩
  · norm_num [FlightController.update, initFlightController,
      FlightController.updateControlSurfaces, FlightController.transitionToPhase]
  · norm_num [FlightController.update, initFlightController,
      FlightController.updateControlSurfaces, FlightController.transitionToPhase, clampQ]

/-- Witness for C4 at the freshly constructed controller. -/
theorem takeoff_unreachable_witness :
    (initFlightController 0).currentPhase ≠ .TAKEOFF :=
  takeoff_unreachable.1 (initFlightController 0) (ReachableFC.ctor 0)

/-!  ## The moving-average window (claims C6, C10, C5)  -/

lemma pushOnce_of_lt {h : List ℚ} (hl : h.length < 5) (v : ℚ) :
    pushOnce h v = h ++ [v] := by
  unfold pushOnce applyFilter FILTER_WINDOW_SIZE
  simp only [List.length_append, List.length_singleton, List.length_cons, List.length_nil]
  rw [if_neg (by omega)]

lemma pushOnce_of_eq {h : List ℚ} (hl : h.length = 5) (v : ℚ) :
    pushOnce h v = (h ++ [v]).tail := by
  unfold pushOnce applyFilter FILTER_WINDOW_SIZE
  simp only [List.length_append, List.length_singleton, List.length_cons, List.length_nil]
  rw [if_pos (by omega)]

/-- The eviction policy in closed form: after one push the window is the
appended list with the oldest entry dropped exactly when the window
overflowed. -/
lemma pushOnce_eq_drop {h : List ℚ} (hl : h.length ≤ 5) (v : ℚ) :
    pushOnce h v = (h ++ [v]).drop (h.length + 1 - 5) := by
  rcases lt_or_eq_of_le hl with hlt | heq
  · rw [pushOnce_of_lt hlt, Nat.sub_eq_zero_of_le (by omega), List.drop_zero]
  · rw [pushOnce_of_eq heq, show h.length + 1 - 5 = 1 by omega, List.drop_one]

lemma pushOnce_length {h : List ℚ} (hl : h.length ≤ 5) (v : ℚ) :
    (pushOnce h v).length = min (h.length + 1) 5 := by
  rcases lt_or_eq_of_le hl with hlt | heq
  · rw [pushOnce_of_lt hlt]
    simp only [List.length_append, List.length_singleton, List.length_cons, List.length_nil]
    omega
  · rw [pushOnce_of_eq heq]
    simp only [List.length_tail, List.length_append, List.length_singleton]
    omega

lemma pushOnce_length_le {h : List ℚ} (hl : h.length ≤ 5) (v : ℚ) :
    (pushOnce h v).length ≤ 5 := by
  rw [pushOnce_length hl]
  omega

/-- The window after pushing a whole sequence, in closed form: the last
(at most) five of the pushed-and-previous samples. -/
lemma pushSeq_eq_drop :
    ∀ (vs : List ℚ) (h : List ℚ), h.length ≤ 5 →
      pushSeq h vs = (h ++ vs).drop (h.length + vs.length - 5) := by
  intro vs
  induction vs with
  | nil =>
    intro h hl
    simp [pushSeq, Nat.sub_eq_zero_of_le hl]
  | cons v vs ih =>
    intro h hl
    rcases lt_or_eq_of_le hl with hlt | heq
    · have h1 : pushSeq h (v :: vs) = pushSeq (h ++ [v]) vs := by
        rw [show pushSeq h (v :: vs) = pushSeq (pushOnce h v) vs from rfl,
          pushOnce_of_lt hlt]
      have h2 : (h ++ [v]).length ≤ 5 := by
        simp only [List.length_append, List.length_singleton, List.length_cons, List.length_nil]
        omega
      rw [h1, ih _ h2]
      have hidx : (h ++ [v]).length + vs.length - 5 = h.length + (v :: vs).length - 5 := by
        simp only [List.length_append, List.length_singleton, List.length_cons, List.length_nil]
        omega
      rw [hidx, List.append_assoc]
      rfl
    · cases h with
      | nil => simp at heq
      | cons a t =>
        have ht : t.length = 4 := by
          simp only [List.length_cons] at heq
          omega
        have h1 : pushSeq (a :: t) (v :: vs) = pushSeq (t ++ [v]) vs := by
          rw [show pushSeq (a :: t) (v :: vs) = pushSeq (pushOnce (a :: t) v) vs from rfl,
            pushOnce_of_eq heq]
          rfl
        have h2 : (t ++ [v]).length ≤ 5 := by
          simp only [List.length_append, List.length_singleton, List.length_cons, List.length_nil]
          omega
        have h4 : (t ++ [v]).length + vs.length - 5 = vs.length := by
          simp only [List.length_append, List.length_singleton, List.length_cons, List.length_nil]
          omega
        have h5 : (a :: t).length + (v :: vs).length - 5 = vs.length + 1 := by
          simp only [List.length_cons]
          omega
        rw [h1, ih _ h2, h4, h5]
        rw [show ((a :: t) ++ v :: vs) = a :: (t ++ v :: vs) from rfl,
          List.drop_succ_cons]
        rw [List.append_assoc]
        rfl

lemma feedConst_eq_pushSeq (h : List ℚ) (v : ℚ) (n : ℕ) :
    feedConst h v n = pushSeq h (List.replicate n v) := by
  induction n with
  | zero => rfl
  | succ n ih =>
    rw [feedConst, ih, List.replicate_succ']
    simp [pushSeq, List.foldl_append]

/-- C6.  One `applyFilter` call appends the sample and evicts the oldest
entry exactly when the window exceeds N = 5 (so the window length is
`min (len + 1) 5`), and returns the arithmetic mean of the current window
contents; consequently feeding a constant `v` for `n ≥ 5` consecutive
samples makes the window `[v, v, v, v, v]` and the filtered output exactly
`v` from the fifth such sample onward. -/
theorem movingAverage_window_and_constant_convergence
    (h : List ℚ) (v : ℚ) (n : ℕ) (hl : h.length ≤ 5) (hn : 5 ≤ n) :
    (applyFilter h v).1 = (h ++ [v]).drop (h.length + 1 - 5) ∧
    (applyFilter h v).1.length = min (h.length + 1) 5 ∧
    (applyFilter h v).2 = (applyFilter h v).1.sum / ((applyFilter h v).1.length : ℚ) ∧
    feedConst h v n = List.replicate 5 v ∧
    (feedConst h v n).sum / ((feedConst h v n).length : ℚ) = v := by
  have hfeed : feedConst h v n = List.replicate 5 v := by
    rw [feedConst_eq_pushSeq, pushSeq_eq_drop _ _ hl]
    rw [show h.length + (List.replicate n v).length - 5 =
        h.length + (n - 5) by simp; omega]
    rw [List.drop_append, List.drop_replicate]
    congr 1
    omega
  refine ⟨pushOnce_eq_drop hl v, pushOnce_length hl v, rfl, hfeed, ?_⟩
  rw [hfeed, List.sum_replicate, List.length_replicate]
  push_cast
  rw [nsmul_eq_mul]
  push_cast
  exact mul_div_cancel_left₀ v (by norm_num)

/-- Witness for C6: two stale samples, then five constant samples. -/
theorem movingAverage_constant_convergence_witness :
    (applyFilter [1, 2] 3).1 = (([1, 2] : List ℚ) ++ [3]).drop (([1, 2] : List ℚ).length + 1 - 5) ∧
    (applyFilter [1, 2] 3).1.length = min (([1, 2] : List ℚ).length + 1) 5 ∧
    (applyFilter [1, 2] 3).2 =
      (applyFilter [1, 2] 3).1.sum / (((applyFilter [1, 2] 3).1.length : ℚ)) ∧
    feedConst [1, 2] 3 5 = List.replicate 5 3 ∧
    (feedConst [1, 2] 3 5).sum / ((feedConst [1, 2] 3 5).length : ℚ) = 3 :=
  movingAverage_window_and_constant_convergence [1, 2] 3 5 (by decide) (by decide)

lemma getLast?_pushOnce {h : List ℚ} (hl : h.length ≤ 5) (v : ℚ) :
    (pushOnce h v).getLast? = some v := by
  rw [pushOnce_eq_drop hl, List.drop_append_of_le_length (by omega)]
  exact List.getLast?_concat _

lemma simulateAltitude_nonneg (sinq : ℚ → ℚ) (t n : ℚ) :
    0 ≤ simulateAltitude sinq false t n := by
  unfold simulateAltitude
  simp only [Bool.false_eq_true, if_false]
  exact le_max_left _ _

lemma simulateAirspeed_nonneg (sinq : ℚ → ℚ) (t n : ℚ) :
    0 ≤ simulateAirspeed sinq false t n := by
  unfold simulateAirspeed
  simp only [Bool.false_eq_true, if_false]
  exact le_max_left _ _

lemma verticalSpeed_applyFilter (h : List ℚ) (v : ℚ) :
    (match (applyFilter h v).1.reverse with
      | a :: b :: _ => (a - b) * 10
      | _ => 0) =
    (match h.getLast? with
      | some p => (v - p) * 10
      | none => 0) := by
  rcases List.eq_nil_or_concat h with rfl | ⟨L, p, rfl⟩
  · simp [applyFilter, FILTER_WINDOW_SIZE]
  · rw [List.concat_eq_append]
    unfold applyFilter FILTER_WINDOW_SIZE
    dsimp only
    by_cases hlen : ((L ++ [p]) ++ [v]).length > 5
    · rw [if_pos hlen]
      have hL : L ≠ [] := by
        intro hL0
        rw [hL0] at hlen
        simp at hlen
      obtain ⟨c, L', rfl⟩ : ∃ c L', L = c :: L' := by
        cases L with
        | nil => exact absurd rfl hL
        | cons c L' => exact ⟨c, L', rfl⟩
      have htail : (((c :: L') ++ [p]) ++ [v]).tail = (L' ++ [p]) ++ [v] := by simp
      rw [htail]
      have hrev : ((L' ++ [p]) ++ [v]).reverse = v :: p :: L'.reverse := by simp
      rw [hrev, List.getLast?_concat]
    · rw [if_neg hlen]
      have hrev : (((L ++ [p]) ++ [v])).reverse = v :: p :: L.reverse := by simp
      rw [hrev, List.getLast?_concat]

/-- C10.  (a) While the altitude fault flag is set, `processSensors` pushes
the sentinel `-999.0` into the altitude filter history (it becomes the last
window entry), the filtered altitude output is the mean of a window
containing the sentinel, and the vertical speed derived from that history
is computed from the sentinel (`(-999 - previous raw) * 10`).  (b) The same
pollution holds for the airspeed channel: with the airspeed fault set, the
sentinel is pushed into the airspeed history and the filtered airspeed
output is the mean of a window containing it.  (c) On the first sample
after the altitude fault is cleared the vertical speed still incorporates
the sentinel (`(new raw - (-999)) * 10`).  (d) Every raw reading of either
channel produced without a fault is nonnegative, so it never equals the
sentinel.  (e) After a fault tick the sentinel remains in the window — both
histories evolve by the same `pushOnce` — for the next
`FILTER_WINDOW_SIZE - 1 = 4` samples, and (f) only after
`FILTER_WINDOW_SIZE = 5` post-clear (nonnegative) samples has it left the
window: the outputs do not revert immediately when the fault clears. -/
theorem faultSentinel_pollutes_filter :
    (∀ (sinq expq : ℚ → ℚ) (s : SensorProcessor) (t n1 n2 n3 n4 : ℚ),
      s.altitudeFault = true → s.altitudeHistory.length ≤ 5 →
      (s.processSensors sinq expq t n1 n2 n3 n4).1.altitudeHistory =
        pushOnce s.altitudeHistory (-999) ∧
      (s.processSensors sinq expq t n1 n2 n3 n4).1.altitudeHistory.getLast? =
        some (-999) ∧
      (-999 : ℚ) ∈ (s.processSensors sinq expq t n1 n2 n3 n4).1.altitudeHistory ∧
      (s.processSensors sinq expq t n1 n2 n3 n4).2.altitude =
        (s.processSensors sinq expq t n1 n2 n3 n4).1.altitudeHistory.sum /
          ((s.processSensors sinq expq t n1 n2 n3 n4).1.altitudeHistory.length : ℚ) ∧
      (s.processSensors sinq expq t n1 n2 n3 n4).2.verticalSpeed =
        (match s.altitudeHistory.getLast? with
          | some p => (-999 - p) * 10
          | none => 0)) ∧
    (∀ (sinq expq : ℚ → ℚ) (s : SensorProcessor) (t n1 n2 n3 n4 : ℚ),
      s.airspeedFault = true → s.airspeedHistory.length ≤ 5 →
      (s.processSensors sinq expq t n1 n2 n3 n4).1.airspeedHistory =
        pushOnce s.airspeedHistory (-999) ∧
      (s.processSensors sinq expq t n1 n2 n3 n4).1.airspeedHistory.getLast? =
        some (-999) ∧
      (-999 : ℚ) ∈ (s.processSensors sinq expq t n1 n2 n3 n4).1.airspeedHistory ∧
      (s.processSensors sinq expq t n1 n2 n3 n4).2.airspeed =
        (s.processSensors sinq expq t n1 n2 n3 n4).1.airspeedHistory.sum /
          ((s.processSensors sinq expq t n1 n2 n3 n4).1.airspeedHistory.length : ℚ)) ∧
    (∀ (sinq expq : ℚ → ℚ) (s : SensorProcessor) (t n1 n2 n3 n4 : ℚ),
      s.altitudeFault = false → s.altitudeHistory.getLast? = some (-999) →
      (s.processSensors sinq expq t n1 n2 n3 n4).2.verticalSpeed =
        (simulateAltitude sinq false t n1 - (-999)) * 10) ∧
    (∀ (sinq : ℚ → ℚ) (t n : ℚ),
      0 ≤ simulateAltitude sinq false t n ∧ 0 ≤ simulateAirspeed sinq false t n) ∧
    (∀ (h : List ℚ) (vs : List ℚ), h.length ≤ 5 → h.getLast? = some (-999) →
      vs.length ≤ 4 → (-999 : ℚ) ∈ pushSeq h vs) ∧
    (∀ (h : List ℚ) (vs : List ℚ), h.length ≤ 5 → 5 ≤ vs.length →
      (∀ x ∈ vs, 0 ≤ x) → (-999 : ℚ) ∉ pushSeq h vs) := by
  refine ⟨?_, ?_, ?_, ?_, ?_, ?_⟩
  · intro sinq expq s t n1 n2 n3 n4 hf hl
    have hist : (s.processSensors sinq expq t n1 n2 n3 n4).1.altitudeHistory =
        pushOnce s.altitudeHistory (-999) := by
      simp [SensorProcessor.processSensors, simulateAltitude, hf, pushOnce]
    have hlast : (s.processSensors sinq expq t n1 n2 n3 n4).1.altitudeHistory.getLast? =
        some (-999) := by
      rw [hist]
      exact getLast?_pushOnce hl _
    have hmem : (-999 : ℚ) ∈ (s.processSensors sinq expq t n1 n2 n3 n4).1.altitudeHistory := by
      obtain ⟨ys, hys⟩ := List.getLast?_eq_some_iff.mp hlast
      rw [hys]
      exact List.mem_append_right _ (List.mem_cons_self _ _)
    have hvs0 : (s.processSensors sinq expq t n1 n2 n3 n4).2.verticalSpeed =
        (match s.altitudeHistory.getLast? with
          | some p => (simulateAltitude sinq s.altitudeFault t n1 - p) * 10
          | none => 0) :=
      verticalSpeed_applyFilter s.altitudeHistory
        (simulateAltitude sinq s.altitudeFault t n1)
    have hvs : (s.processSensors sinq expq t n1 n2 n3 n4).2.verticalSpeed =
        (match s.altitudeHistory.getLast? with
          | some p => ((-999 : ℚ) - p) * 10
          | none => 0) := by
      rw [hvs0, hf]
      rfl
    exact ⟨hist, hlast, hmem, rfl, hvs⟩
  · intro sinq expq s t n1 n2 n3 n4 hf hl
    have hist : (s.processSensors sinq expq t n1 n2 n3 n4).1.airspeedHistory =
        pushOnce s.airspeedHistory (-999) := by
      simp [SensorProcessor.processSensors, simulateAirspeed, hf, pushOnce]
    have hlast : (s.processSensors sinq expq t n1 n2 n3 n4).1.airspeedHistory.getLast? =
        some (-999) := by
      rw [hist]
      exact getLast?_pushOnce hl _
    have hmem : (-999 : ℚ) ∈ (s.processSensors sinq expq t n1 n2 n3 n4).1.airspeedHistory := by
      obtain ⟨ys, hys⟩ := List.getLast?_eq_some_iff.mp hlast
      rw [hys]
      exact List.mem_append_right _ (List.mem_cons_self _ _)
    exact ⟨hist, hlast, hmem, rfl⟩
  · intro sinq expq s t n1 n2 n3 n4 hf hl
    have hvs0 : (s.processSensors sinq expq t n1 n2 n3 n4).2.verticalSpeed =
        (match s.altitudeHistory.getLast? with
          | some p => (simulateAltitude sinq s.altitudeFault t n1 - p) * 10
          | none => 0) :=
      verticalSpeed_applyFilter s.altitudeHistory
        (simulateAltitude sinq s.altitudeFault t n1)
    rw [hvs0, hf, hl]
  · intro sinq t n
    exact ⟨simulateAltitude_nonneg sinq t n, simulateAirspeed_nonneg sinq t n⟩
  · intro h vs hl hlast hk
    obtain ⟨l', hsplit⟩ := List.getLast?_eq_some_iff.mp hlast
    subst hsplit
    have hlen : (l' ++ [(-999 : ℚ)]).length = l'.length + 1 := by simp
    have hdropn : (l' ++ [(-999 : ℚ)]).length + vs.length - 5 ≤ l'.length := by
      rw [hlen]
      omega
    rw [pushSeq_eq_drop vs _ hl, List.append_assoc,
      List.drop_append_of_le_length hdropn, List.singleton_append]
    exact List.mem_append_right _ (List.mem_cons_self _ _)
  · intro h vs hl h5 hpos hmem
    rw [pushSeq_eq_drop vs h hl,
      show h.length + vs.length - 5 = h.length + (vs.length - 5) by omega,
      List.drop_append] at hmem
    have : (0 : ℚ) ≤ -999 := hpos _ (List.mem_of_mem_drop hmem)
    norm_num at this

/-- Witness for C10 at concrete three-sample histories with the altitude
fault active (first conjunct), the airspeed fault active (second), and an
altitude fault just cleared (third). -/
theorem faultSentinel_pollutes_filter_witness :
    ((pollutedProcessor.processSensors sinZero expOne 0 0 0 0 0).1.altitudeHistory =
        pushOnce pollutedProcessor.altitudeHistory (-999) ∧
      (pollutedProcessor.processSensors sinZero expOne 0 0 0 0 0).1.altitudeHistory.getLast? =
        some (-999) ∧
      (-999 : ℚ) ∈ (pollutedProcessor.processSensors sinZero expOne 0 0 0 0 0).1.altitudeHistory ∧
      (pollutedProcessor.processSensors sinZero expOne 0 0 0 0 0).2.altitude =
        (pollutedProcessor.processSensors sinZero expOne 0 0 0 0 0).1.altitudeHistory.sum /
          ((pollutedProcessor.processSensors sinZero expOne 0 0 0 0 0).1.altitudeHistory.length : ℚ) ∧
      (pollutedProcessor.processSensors sinZero expOne 0 0 0 0 0).2.verticalSpeed =
        (match pollutedProcessor.altitudeHistory.getLast? with
          | some p => ((-999 : ℚ) - p) * 10
          | none => 0)) ∧
    ((pollutedAirProcessor.processSensors sinZero expOne 0 0 0 0 0).1.airspeedHistory =
        pushOnce pollutedAirProcessor.airspeedHistory (-999) ∧
      (pollutedAirProcessor.processSensors sinZero expOne 0 0 0 0 0).1.airspeedHistory.getLast? =
        some (-999) ∧
      (-999 : ℚ) ∈ (pollutedAirProcessor.processSensors sinZero expOne 0 0 0 0 0).1.airspeedHistory ∧
      (pollutedAirProcessor.processSensors sinZero expOne 0 0 0 0 0).2.airspeed =
        (pollutedAirProcessor.processSensors sinZero expOne 0 0 0 0 0).1.airspeedHistory.sum /
          ((pollutedAirProcessor.processSensors sinZero expOne 0 0 0 0 0).1.airspeedHistory.length : ℚ)) ∧
    (clearedProcessor.processSensors sinZero expOne 0 0 0 0 0).2.verticalSpeed =
      (simulateAltitude sinZero false 0 0 - (-999)) * 10 :=
  ⟨faultSentinel_pollutes_filter.1 sinZero expOne pollutedProcessor 0 0 0 0 0
      rfl (by decide),
    faultSentinel_pollutes_filter.2.1 sinZero expOne pollutedAirProcessor 0 0 0 0 0
      rfl (by decide),
    faultSentinel_pollutes_filter.2.2.1 sinZero expOne clearedProcessor 0 0 0 0 0
      rfl rfl⟩

/-!  ## Vertical speed (claim C5)  -/

/-- C5 amended.  The `verticalSpeed` field produced by `processSensors` is
the first difference of the last two RAW altitude samples held in the
filter history (the current raw reading minus the previous one), scaled by
the hard-coded constant 10.0 ("assuming 10 Hz"); it is 0 on the first
sample.  It is not the difference of the last two filtered outputs, and it
does not use the configured update rate. -/
theorem verticalSpeed_is_raw_difference (sinq expq : ℚ → ℚ) (s : SensorProcessor)
    (t n1 n2 n3 n4 : ℚ) :
    (s.processSensors sinq expq t n1 n2 n3 n4).2.verticalSpeed =
      match s.altitudeHistory.getLast? with
      | some prev => (simulateAltitude sinq s.altitudeFault t n1 - prev) * 10
      | none => 0 :=
  verticalSpeed_applyFilter s.altitudeHistory (simulateAltitude sinq s.altitudeFault t n1)

/-- Counterexample to C5 as stated: on the second tick the code returns
verticalSpeed = (5 - 0) * 10 = 50 (raw first difference), while the first
difference of the last two filtered altitude samples times the tick rate is
(5/2 - 0) * 10 = 25. -/
theorem verticalSpeed_not_filtered_difference :
    c5run2.2.verticalSpeed = 50 ∧
    (c5run2.2.altitude - c5run1.2.altitude) * 10 = 25 ∧
    c5run2.2.verticalSpeed ≠ (c5run2.2.altitude - c5run1.2.altitude) * 10 := by
  have h1 : c5run1 = (⟨[0], [0], false, false, false⟩,
      ⟨0, 0, 1013.25, 15, 0, true⟩) := by
    unfold c5run1 initSensorProcessor SensorProcessor.processSensors
    norm_num [simulateAltitude, simulateAirspeed, simulatePressure,
      simulateTemperature, applyFilter, FILTER_WINDOW_SIZE, sinZero, expOne]
  have h2 : c5run2.2.verticalSpeed = 50 ∧ c5run2.2.altitude = 5 / 2 := by
    unfold c5run2
    rw [h1]
    unfold SensorProcessor.processSensors
    norm_num [simulateAltitude, simulateAirspeed, simulatePressure,
      simulateTemperature, applyFilter, FILTER_WINDOW_SIZE, sinZero, expOne]
  refine ⟨h2.1, ?_, ?_⟩ <;> rw [h1, h2.2] <;> norm_num [h2.1]

/-!  ## The emergency override (claim C1)  -/

lemma emergencyOverride_phase (fc : FlightController) (fh : FaultHandler) (now : ℚ)
    (h : fh.isSystemSafe = false) :
    (emergencyOverride fc fh now).currentPhase = .EMERGENCY := by
  unfold emergencyOverride
  rw [h]
  by_cases hp : fc.currentPhase = FlightPhase.EMERGENCY
  · simp [hp]
  · simp [hp, FlightController.triggerEmergency]

lemma c1tick_safety_false :
    (c1Monitor.tick sinZero expOne 0 0 0 0 0 (1/10)).1.faultHandler.isSystemSafe
      = false := by
  norm_num [SystemMonitor.tick, c1Monitor, initFlightController, initSensorProcessor,
    initFaultHandler, SensorProcessor.injectFault, SensorProcessor.processSensors,
    simulateAltitude, simulateAirspeed, simulatePressure, simulateTemperature,
    applyFilter, FILTER_WINDOW_SIZE, sinZero, expOne, FlightController.update,
    FlightController.updateControlSurfaces, FlightController.transitionToPhase,
    clampQ, FaultHandler.checkSensorHealth, FaultHandler.checkControlSystem,
    FaultHandler.reportFault, FaultHandler.isInRange, FaultHandler.isSystemSafe]

lemma c1tick_snapshot_phase :
    (c1Monitor.tick sinZero expOne 0 0 0 0 0 (1/10)).2.phase =
      FlightPhase.PREFLIGHT := by
  norm_num [SystemMonitor.tick, c1Monitor, initFlightController, initSensorProcessor,
    initFaultHandler, SensorProcessor.injectFault, SensorProcessor.processSensors,
    simulateAltitude, simulateAirspeed, simulatePressure, simulateTemperature,
    applyFilter, FILTER_WINDOW_SIZE, sinZero, expOne, FlightController.update,
    FlightController.updateControlSurfaces, FlightController.transitionToPhase,
    clampQ]

/-- C1 amended.  After the fault checks of any tick, if the aggregate
status is unsafe the orchestrator forces EMERGENCY, so at the end of every
tick the controller itself satisfies "not safe implies phase = EMERGENCY";
the snapshot emitted during the triggering tick, however, still carries the
phase captured before the override (see the counterexample), so snapshots
satisfy the implication only from the next tick on. -/
theorem unsafe_implies_emergency_at_tick_end (m : SystemMonitor)
    (sinq expq : ℚ → ℚ) (nAlt nAir nPress nTemp now dt : ℚ)
    (h : (m.tick sinq expq nAlt nAir nPress nTemp now dt).1.faultHandler.isSystemSafe
      = false) :
    (m.tick sinq expq nAlt nAir nPress nTemp now dt).1.flightController.currentPhase
      = FlightPhase.EMERGENCY :=
  emergencyOverride_phase _ _ _ h

/-- Witness for C1 at the concrete post-injection monitor state. -/
theorem unsafe_implies_emergency_at_tick_end_witness :
    (c1Monitor.tick sinZero expOne 0 0 0 0 0 (1/10)).1.flightController.currentPhase
      = FlightPhase.EMERGENCY :=
  unsafe_implies_emergency_at_tick_end c1Monitor sinZero expOne 0 0 0 0 0 (1/10)
    c1tick_safety_false

/-- Counterexample to C1 as stated: on the very tick in which the CRITICAL
fault first makes the system unsafe and the override fires (the controller
does end the tick in EMERGENCY), the emitted snapshot still reports the
pre-override phase PREFLIGHT, so the snapshot does not satisfy "not safe
implies phase = EMERGENCY". -/
theorem snapshot_lags_emergency_override :
    (c1Monitor.tick sinZero expOne 0 0 0 0 0 (1/10)).1.faultHandler.isSystemSafe
      = false ∧
    (c1Monitor.tick sinZero expOne 0 0 0 0 0 (1/10)).2.phase ≠ FlightPhase.EMERGENCY ∧
    (c1Monitor.tick sinZero expOne 0 0 0 0 0 (1/10)).1.flightController.currentPhase
      = FlightPhase.EMERGENCY := by
  refine ⟨c1tick_safety_false, ?_, emergencyOverride_phase _ _ _ c1tick_safety_false⟩
  rw [c1tick_snapshot_phase]
  simp

/-!  ## No FATAL fault in the closed loop (claim C9)  -/

lemma countFatal_ite_reportWarning {b : Prop} [Decidable b] {g : FaultHandler}
    {c d : String} :
    countFatal ((if b then g.reportFault .WARNING c d else g).faults) =
      countFatal g.faults := by
  split <;>
    simp [FaultHandler.reportFault, countFatal, List.countP_append, List.countP_cons]

lemma countFatal_checkSensorHealth (h : FaultHandler) (alt air press : ℚ)
    (valid : Bool) (halt : 0 ≤ alt) :
    countFatal ((h.checkSensorHealth alt air press valid).faults) =
      countFatal h.faults := by
  cases valid with
  | false =>
    simp [FaultHandler.checkSensorHealth, FaultHandler.reportFault, countFatal,
      List.countP_append, List.countP_cons]
  | true =>
    have hcond : ¬(alt < 0 ∧ air > 50) := by
      rintro ⟨h1, _⟩
      linarith
    simp only [FaultHandler.checkSensorHealth, Bool.not_true, Bool.false_eq_true,
      if_false]
    rw [if_neg hcond, countFatal_ite_reportWarning, countFatal_ite_reportWarning,
      countFatal_ite_reportWarning]

lemma countFatal_checkControlSystem (h : FaultHandler) (e a r : ℚ) :
    countFatal ((h.checkControlSystem e a r).faults) = countFatal h.faults := by
  simp only [FaultHandler.checkControlSystem]
  rw [countFatal_ite_reportWarning, countFatal_ite_reportWarning,
    countFatal_ite_reportWarning]

lemma mem_applyFilter_subset {h : List ℚ} {v x : ℚ}
    (hx : x ∈ (applyFilter h v).1) : x ∈ h ++ [v] := by
  unfold applyFilter at hx
  dsimp only at hx
  split at hx
  · exact (List.tail_sublist _).subset hx
  · exact hx

lemma altitude_filter_nonneg {s : SensorProcessor} (sinq expq : ℚ → ℚ)
    (t n1 n2 n3 n4 : ℚ) (hf : s.altitudeFault = false)
    (hnn : ∀ x ∈ s.altitudeHistory, 0 ≤ x) :
    (∀ x ∈ (s.processSensors sinq expq t n1 n2 n3 n4).1.altitudeHistory, 0 ≤ x) ∧
    0 ≤ (s.processSensors sinq expq t n1 n2 n3 n4).2.altitude := by
  have hmem : ∀ x ∈ (applyFilter s.altitudeHistory
      (simulateAltitude sinq false t n1)).1, 0 ≤ x := by
    intro x hx
    rcases List.mem_append.mp (mem_applyFilter_subset hx) with hx' | hx'
    · exact hnn x hx'
    · rw [List.mem_singleton] at hx'
      subst hx'
      exact simulateAltitude_nonneg sinq t n1
  have hhist : (s.processSensors sinq expq t n1 n2 n3 n4).1.altitudeHistory =
      (applyFilter s.altitudeHistory (simulateAltitude sinq false t n1)).1 := by
    simp [SensorProcessor.processSensors, hf]
  have halt : (s.processSensors sinq expq t n1 n2 n3 n4).2.altitude =
      (applyFilter s.altitudeHistory (simulateAltitude sinq false t n1)).1.sum /
        ((applyFilter s.altitudeHistory (simulateAltitude sinq false t n1)).1.length : ℚ) := by
    simp [SensorProcessor.processSensors, hf, applyFilter]
  constructor
  · rw [hhist]
    exact hmem
  · rw [halt]
    exact div_nonneg (List.sum_nonneg hmem) (by positivity)

lemma tick_preserves_inv {m : SystemMonitor} (sinq expq : ℚ → ℚ)
    (nAlt nAir nPress nTemp now dt : ℚ) (hi : SystemMonitorInv m) :
    SystemMonitorInv (m.tick sinq expq nAlt nAir nPress nTemp now dt).1 := by
  obtain ⟨hf, hnn, hcf⟩ := hi
  have hns := altitude_filter_nonneg sinq expq m.simulationTime nAlt nAir nPress nTemp
    hf hnn
  unfold SystemMonitorInv
  simp only [SystemMonitor.tick]
  refine ⟨?_, ?_, ?_⟩
  · split_ifs <;>
      simp [SensorProcessor.injectFault, SensorProcessor.processSensors, hf]
  · split_ifs <;>
      simpa [SensorProcessor.injectFault, SensorProcessor.processSensors] using hns.1
  · rw [countFatal_checkControlSystem, countFatal_checkSensorHealth _ _ _ _ _ hns.2]
    exact hcf

lemma runSystemMonitor_inv (sinq expq : ℚ → ℚ) (noise : ℕ → ℚ × ℚ × ℚ × ℚ)
    (nowf : ℕ → ℚ) (dt : ℚ) :
    ∀ n, SystemMonitorInv (runSystemMonitor sinq expq noise nowf dt n) := by
  intro n
  induction n with
  | zero =>
    refine ⟨rfl, ?_, rfl⟩
    intro x hx
    simp [runSystemMonitor, initSystemMonitor, initSensorProcessor] at hx
  | succ n ih =>
    exact tick_preserves_inv sinq expq _ _ _ _ _ _ ih

/-- C9.  In the closed simulation loop no FATAL compound fault is ever
reported: the loop's own injection schedule never sets the altitude fault
flag, so every raw altitude is clamped to ≥ 0, the filtered altitude stays
≥ 0, and `checkSensorHealth` (whose FATAL branch needs altitude < 0) can
only log the CRITICAL record on invalid ticks — for every tick count `n`
and every noise/clock stream the fault log holds zero FATAL records. -/
theorem no_fatal_in_closed_loop (sinq expq : ℚ → ℚ) (noise : ℕ → ℚ × ℚ × ℚ × ℚ)
    (nowf : ℕ → ℚ) (dt : ℚ) (n : ℕ) :
    countFatal (runSystemMonitor sinq expq noise nowf dt n).faultHandler.faults = 0 :=
  (runSystemMonitor_inv sinq expq noise nowf dt n).2.2

